import Mathlib

/-!
Shallow embedding of the pdf-thumb adaptation layer (src/lib.rs).

The library is a thin wrapper over a host platform's PDF rendering
services.  All platform calls (document/page handles, in-memory streams,
render issuance and completion, stream reads, handle close) are modelled
by a deterministic oracle `Platform` whose fields give the outcome of
each platform call; the wrapper code itself is translated faithfully,
including its control flow, the order of platform calls, the points at
which the Rust page wrapper is dropped, and the numeric conversions it
performs.
-/

set_option autoImplicit false

namespace PdfThumb

/-- Opaque platform error (windows core error), carried by an error code. -/
structure WindowsError where
  code : Nat
deriving DecidableEq, Repr

/-- The library error enum: an I/O error or a platform (windows) error. -/
inductive PdfThumbError where
  | ioError (code : Nat)
  | windows (e : WindowsError)
deriving DecidableEq, Repr

/-- Lift a platform-call outcome into the library error type, as the
source's From conversion from the windows error into PdfThumbError does. -/
def liftW {α : Type} : Except WindowsError α → Except PdfThumbError α
  | .ok a => .ok a
  | .error e => .error (.windows e)

/-- Modelled from the spec: the encoder identifiers are fixed
platform-defined 128-bit constants (the module guid of this repository is
not under src/); each is modelled as its documented 128-bit value. -/
structure GUID where
  val : Nat
deriving DecidableEq, Repr

/-- Modelled from the spec: the platform PNG encoder identifier constant. -/
def PNG_ENCORDER_ID : GUID := ⟨0x27949969876a41d79447568f6a35a4dc⟩

/-- Modelled from the spec: the platform BMP encoder identifier constant. -/
def BITMAP_ENCODER_ID : GUID := ⟨0x69be8bb4d66d47c8865aed1589433782⟩

/-- Modelled from the spec: the platform JPEG encoder identifier constant. -/
def JPEG_ENCORDER_ID : GUID := ⟨0x1a34f5c14a5a46dcb6441f4567e7a676⟩

/-- Modelled from the spec: the platform TIFF encoder identifier constant. -/
def TIFF_ENCODER_ID : GUID := ⟨0x0af1d87efcfe4188bdeba7906eb5426a⟩

/-- Modelled from the spec: the platform GIF encoder identifier constant. -/
def GIF_ENCODER_ID : GUID := ⟨0x114f55980b2240a086a1ae83ed516986⟩

/-- The user-facing image format enum; machine values are irrelevant. -/
inductive ImageFormat where
  | Png
  | Bmp
  | Jpeg
  | Tiff
  | Gif
deriving DecidableEq, Repr

/-- Default for ImageFormat is Png, as in the source's Default impl. -/
def ImageFormat.default : ImageFormat := .Png

/-- The guid lookup of the source: format to fixed encoder identifier. -/
def ImageFormat.guid : ImageFormat → GUID
  | .Png => PNG_ENCORDER_ID
  | .Bmp => BITMAP_ENCODER_ID
  | .Jpeg => JPEG_ENCORDER_ID
  | .Tiff => TIFF_ENCODER_ID
  | .Gif => GIF_ENCODER_ID

/-- The user-facing rectangle: four u32 fields, modelled as Nat values
(all source operations on it are construction and equality). -/
structure Rect where
  x : Nat
  y : Nat
  width : Nat
  height : Nat
deriving DecidableEq, Repr

/-- The derived Default for Rect: all four fields zero. -/
def Rect.default : Rect := ⟨0, 0, 0, 0⟩

/-- The platform rectangle produced by the From conversion.  The source
casts each u32 field to the platform's floating-point field; the cast is
modelled as the identity on the integer value (the claims under study do
not depend on floating-point rounding of the coordinates). -/
structure FoundationRect where
  X : Nat
  Y : Nat
  Width : Nat
  Height : Nat
deriving DecidableEq, Repr

/-- The From conversion of the source: user rect to platform rect. -/
def FoundationRect.fromRect (r : Rect) : FoundationRect :=
  ⟨r.x, r.y, r.width, r.height⟩

/-- The user-facing Options struct: destination width/height (0 meaning
unset), source rectangle (zero rect meaning whole page), zero-based page
index, and output image format. -/
structure Options where
  width : Nat
  height : Nat
  rect : Rect
  page : Nat
  format : ImageFormat
deriving DecidableEq, Repr

/-- The derived Default for Options: zero width/height, zero rect, page
0, Png. -/
def Options.default : Options :=
  ⟨0, 0, Rect.default, 0, ImageFormat.default⟩

/-- The platform render-options object, modelled as the record of values
its setters have been given (none meaning the setter was not called). -/
structure PdfPageRenderOptions where
  destinationWidth : Option Nat
  destinationHeight : Option Nat
  sourceRect : Option FoundationRect
  bitmapEncoderId : Option GUID
deriving DecidableEq, Repr

/-- The freshly constructed render-options object, before any setter. -/
def PdfPageRenderOptions.empty : PdfPageRenderOptions :=
  ⟨none, none, none, none⟩

/-- Deterministic oracle for every platform call the render path makes.
Each field gives the platform's answer to one call; the wrapper code is
then a pure function of this oracle.  renderedContent gives the bytes
the platform leaves in the in-memory output stream once a render issued
with the given options object completes. -/
structure Platform where
  getPageResult : Nat → Except WindowsError Unit
  newStreamResult : Except WindowsError Unit
  newRenderOptionsResult : Except WindowsError Unit
  setDestinationWidthResult : Nat → Except WindowsError Unit
  setDestinationHeightResult : Nat → Except WindowsError Unit
  setSourceRectResult : FoundationRect → Except WindowsError Unit
  setBitmapEncoderIdResult : GUID → Except WindowsError Unit
  renderIssueResult : Option PdfPageRenderOptions → Except WindowsError Unit
  renderCompleteResult : Except WindowsError Unit
  renderedContent : Option PdfPageRenderOptions → List Nat
  getInputStreamResult : Except WindowsError Unit
  createReaderResult : Except WindowsError Unit
  sizeQueryResult : Except WindowsError Unit
  loadCompleteResult : Nat → Except WindowsError Unit
  readBytesResult : Nat → Except WindowsError Unit
  closeResult : Except WindowsError Unit

/-- The conditional SetDestinationWidth call of the TryFrom impl:
executed only when options.width is greater than zero. -/
def setWidthStep (pf : Platform) (options : Options)
    (op : PdfPageRenderOptions) : Except PdfThumbError PdfPageRenderOptions :=
  if 0 < options.width then
    match pf.setDestinationWidthResult options.width with
    | .ok _ => .ok { op with destinationWidth := some options.width }
    | .error e => .error (.windows e)
  else .ok op

/-- The conditional SetDestinationHeight call of the TryFrom impl:
executed only when options.height is greater than zero. -/
def setHeightStep (pf : Platform) (options : Options)
    (op : PdfPageRenderOptions) : Except PdfThumbError PdfPageRenderOptions :=
  if 0 < options.height then
    match pf.setDestinationHeightResult options.height with
    | .ok _ => .ok { op with destinationHeight := some options.height }
    | .error e => .error (.windows e)
  else .ok op

/-- The conditional SetSourceRect call of the TryFrom impl: executed only
when options.rect differs from the default (all-zero) Rect; the rect is
first converted to the platform rectangle. -/
def setRectStep (pf : Platform) (options : Options)
    (op : PdfPageRenderOptions) : Except PdfThumbError PdfPageRenderOptions :=
  if options.rect ≠ Rect.default then
    match pf.setSourceRectResult (FoundationRect.fromRect options.rect) with
    | .ok _ => .ok { op with sourceRect := some (FoundationRect.fromRect options.rect) }
    | .error e => .error (.windows e)
  else .ok op

/-- The unconditional SetBitmapEncoderId call of the TryFrom impl. -/
def setEncoderStep (pf : Platform) (options : Options)
    (op : PdfPageRenderOptions) : Except PdfThumbError PdfPageRenderOptions :=
  match pf.setBitmapEncoderIdResult (ImageFormat.guid options.format) with
  | .ok _ => .ok { op with bitmapEncoderId := some (ImageFormat.guid options.format) }
  | .error e => .error (.windows e)

/-- The TryFrom conversion from Options to the platform render-options
object: construct the object, conditionally set width, height and source
rect, then unconditionally set the encoder identifier; the first failing
platform call aborts the conversion with its error (each question-mark
propagation of the source is a bind on the error monad). -/
def PdfPageRenderOptions.tryFrom (pf : Platform) (options : Options) :
    Except PdfThumbError PdfPageRenderOptions :=
  Except.bind (liftW pf.newRenderOptionsResult) fun _ =>
  Except.bind (setWidthStep pf options PdfPageRenderOptions.empty) fun op1 =>
  Except.bind (setHeightStep pf options op1) fun op2 =>
  Except.bind (setRectStep pf options op2) fun op3 =>
  setEncoderStep pf options op3

/-- The modulus of the u32 cast performed by the source's size as u32. -/
def u32Mod : Nat := 4294967296

/-- The byte count the source requests from LoadAsync: the 64-bit stream
size cast to u32, that is reduced modulo 2 to the 32. -/
def loadRequestSize (size : Nat) : Nat := size % u32Mod

/-- Modelled platform DataReader behavior: LoadAsync loads at most the
requested number of bytes and never more than the stream holds, so the
number of stream bytes available to the subsequent read. -/
def loadedByteCount (size : Nat) : Nat := min (loadRequestSize size) size

/-- The read_bytes function of the source, over the oracle and the bytes
the output stream holds: obtain an input stream at position 0, create a
reader, query the stream size, load (size cast to u32) bytes, allocate a
zero-filled buffer of the full size, and read into it.  The platform
read is modelled as copying the loaded bytes into the front of the
buffer, the remainder keeping its zero initialisation. -/
def read_bytes (pf : Platform) (contents : List Nat) :
    Except PdfThumbError (List Nat) :=
  match pf.getInputStreamResult with
  | .error e => .error (.windows e)
  | .ok _ =>
  match pf.createReaderResult with
  | .error e => .error (.windows e)
  | .ok _ =>
  match pf.sizeQueryResult with
  | .error e => .error (.windows e)
  | .ok _ =>
  match pf.loadCompleteResult (loadRequestSize contents.length) with
  | .error e => .error (.windows e)
  | .ok _ =>
  match pf.readBytesResult contents.length with
  | .error e => .error (.windows e)
  | .ok _ =>
    .ok (contents.take (loadedByteCount contents.length) ++
      (List.replicate contents.length 0).drop (loadedByteCount contents.length))

/-- The render function of the source.  It consumes the page wrapper by
value, converts the Options with try_into and discards a conversion
error with as_ref().ok() (passing no options object to the platform in
that case), and issues the asynchronous render.  The returned value
models the completion token by the options object the render was issued
with (which determines the eventual stream content); the second
component counts the Close calls performed on the page handle: the page
wrapper is dropped, once, when render returns on either path. -/
def render (pf : Platform) (options : Options) :
    (Except PdfThumbError (Option PdfPageRenderOptions)) × Nat :=
  (match pf.renderIssueResult ((PdfPageRenderOptions.tryFrom pf options).toOption) with
   | .ok _ => .ok ((PdfPageRenderOptions.tryFrom pf options).toOption)
   | .error e => .error (.windows e), 1)

/-- The thumb_with_options method: look up the page by options.page,
create the in-memory output stream, issue the render (the page wrapper
is moved into render and dropped there), drive the completion, then read
the stream back.  The second component counts Close calls on the page
handle across the whole call: 0 when page lookup fails (no wrapper ever
exists), 1 on every other path. -/
def thumb_with_options (pf : Platform) (options : Options) :
    (Except PdfThumbError (List Nat)) × Nat :=
  match liftW (pf.getPageResult options.page) with
  | .error e => (.error e, 0)
  | .ok _ =>
  match liftW pf.newStreamResult with
  | .error e => (.error e, 1)
  | .ok _ =>
  match render pf options with
  | (.error e, n) => (.error e, n)
  | (.ok ro, n) =>
    match liftW pf.renderCompleteResult with
    | .error e => (.error e, n)
    | .ok _ => (read_bytes pf (pf.renderedContent ro), n)

/-- The thumb_with_options_async method, translated separately from its
own source body: the same steps as the blocking variant, with the single
await of the completion token in place of the blocking get. -/
def thumb_with_options_async (pf : Platform) (options : Options) :
    (Except PdfThumbError (List Nat)) × Nat :=
  match liftW (pf.getPageResult options.page) with
  | .error e => (.error e, 0)
  | .ok _ =>
  match liftW pf.newStreamResult with
  | .error e => (.error e, 1)
  | .ok _ =>
  match render pf options with
  | (.error e, n) => (.error e, n)
  | (.ok ro, n) =>
    match liftW pf.renderCompleteResult with
    | .error e => (.error e, n)
    | .ok _ => (read_bytes pf (pf.renderedContent ro), n)

/-- The thumb method: delegate to thumb_with_options with the default
Options value. -/
def thumb (pf : Platform) : (Except PdfThumbError (List Nat)) × Nat :=
  thumb_with_options pf Options.default

/-- The thumb_async method: delegate to thumb_with_options_async with
the default Options value. -/
def thumb_async (pf : Platform) : (Except PdfThumbError (List Nat)) × Nat :=
  thumb_with_options_async pf Options.default

/-- Minimal model of an IEEE single-precision value, covering the
aspects the source exercises: finite values (carried exactly as
rationals, rounding being irrelevant to the properties studied), the two
infinities and NaN. -/
inductive F32 where
  | finite (q : ℚ)
  | posInf
  | negInf
  | nan
deriving DecidableEq

/-- Whether an F32 value is finite. -/
def F32.isFinite : F32 → Bool
  | .finite _ => true
  | _ => false

/-- IEEE division on the F32 model.  A finite value divided by finite
zero yields NaN when the dividend is zero and a signed infinity
otherwise; no case is an error. -/
def F32.fdiv : F32 → F32 → F32
  | .nan, _ => .nan
  | _, .nan => .nan
  | .finite a, .finite b =>
      if b = 0 then
        if a = 0 then .nan else if 0 < a then .posInf else .negInf
      else .finite (a / b)
  | .finite _, .posInf => .finite 0
  | .finite _, .negInf => .finite 0
  | .posInf, .finite a => if 0 ≤ a then .posInf else .negInf
  | .negInf, .finite a => if 0 ≤ a then .negInf else .posInf
  | _, _ => .nan

/-- The Size struct of the source: a page's intrinsic floating-point
width and height. -/
structure Size where
  width : F32
  height : F32
deriving DecidableEq

/-- The aspect_ratio method of the source: width divided by height,
unconditionally, with no guard on the height; total by its type. -/
def Size.aspectRatioWH (s : Size) : F32 :=
  F32.fdiv s.width s.height

/-- The render-options object the translation produces when every
platform call succeeds, written out field by field; proved below to be
the unique successful result of the TryFrom conversion. -/
def translatedOptions (opts : Options) : PdfPageRenderOptions :=
  ⟨if 0 < opts.width then some opts.width else none,
   if 0 < opts.height then some opts.height else none,
   if opts.rect = Rect.default then none
     else some (FoundationRect.fromRect opts.rect),
   some (ImageFormat.guid opts.format)⟩

/-- The render pipeline as run with no options object passed to the
platform render call: page lookup, stream creation, render issuance with
none, completion, stream read.  Used below to state that a failed
options translation is discarded and the call proceeds exactly this
way. -/
def thumbPipelineNoOptions (pf : Platform) (opts : Options) :
    (Except PdfThumbError (List Nat)) × Nat :=
  match liftW (pf.getPageResult opts.page) with
  | .error e => (.error e, 0)
  | .ok _ =>
  match liftW pf.newStreamResult with
  | .error e => (.error e, 1)
  | .ok _ =>
  match liftW (pf.renderIssueResult none) with
  | .error e => (.error e, 1)
  | .ok _ =>
  match liftW pf.renderCompleteResult with
  | .error e => (.error e, 1)
  | .ok _ => (read_bytes pf (pf.renderedContent none), 1)

/-- A platform oracle on which every call succeeds; the rendered stream
content is a fixed four-byte sequence regardless of options. -/
def pfOK : Platform where
  getPageResult := fun _ => .ok ()
  newStreamResult := .ok ()
  newRenderOptionsResult := .ok ()
  setDestinationWidthResult := fun _ => .ok ()
  setDestinationHeightResult := fun _ => .ok ()
  setSourceRectResult := fun _ => .ok ()
  setBitmapEncoderIdResult := fun _ => .ok ()
  renderIssueResult := fun _ => .ok ()
  renderCompleteResult := .ok ()
  renderedContent := fun _ => [137, 80, 78, 71]
  getInputStreamResult := .ok ()
  createReaderResult := .ok ()
  sizeQueryResult := .ok ()
  loadCompleteResult := fun _ => .ok ()
  readBytesResult := fun _ => .ok ()
  closeResult := .ok ()

/-- A platform oracle on which constructing the render-options object
fails with error code 5, every other call succeeding. -/
def pfBadOptions : Platform :=
  { pfOK with newRenderOptionsResult := .error ⟨5⟩ }

/-- A platform oracle whose load call succeeds only when asked for
exactly 4294967296 bytes, every other call succeeding. -/
def pfStrictLoad : Platform :=
  { pfOK with
    loadCompleteResult := fun n =>
      if n = 4294967296 then .ok () else .error ⟨7⟩ }

/-- Helper: lifting a successful platform call gives success. -/
theorem liftW_ok {α : Type} (a : α) : liftW (.ok a) = (.ok a : Except PdfThumbError α) :=
  rfl

/-- Helper: lifting a failed platform call wraps the windows error. -/
theorem liftW_error {α : Type} (e : WindowsError) :
    liftW (.error e) = (.error (.windows e) : Except PdfThumbError α) :=
  rfl

/-- Helper: bind on a success applies the continuation. -/
theorem exceptBind_ok {α β : Type} (a : α) (f : α → Except PdfThumbError β) :
    Except.bind (.ok a) f = f a :=
  rfl

/-- Helper: bind on an error propagates the error. -/
theorem exceptBind_error {α β : Type} (e : PdfThumbError)
    (f : α → Except PdfThumbError β) :
    Except.bind (.error e) f = (.error e : Except PdfThumbError β) :=
  rfl

/-- Helper: a successful width step yields the input object with the
width field set exactly when the option is positive. -/
theorem setWidthStep_ok_eq (pf : Platform) (opts : Options)
    (op op' : PdfPageRenderOptions) (h : setWidthStep pf opts op = .ok op') :
    op' = if 0 < opts.width then
        { op with destinationWidth := some opts.width } else op := by
  by_cases hw : 0 < opts.width
  · rw [if_pos hw]
    cases hr : pf.setDestinationWidthResult opts.width with
    | error e =>
      unfold setWidthStep at h
      rw [if_pos hw, hr] at h
      exact Except.noConfusion h
    | ok u =>
      unfold setWidthStep at h
      rw [if_pos hw, hr] at h
      exact (Except.ok.inj h).symm
  · rw [if_neg hw]
    unfold setWidthStep at h
    rw [if_neg hw] at h
    exact (Except.ok.inj h).symm

/-- Helper: a successful height step yields the input object with the
height field set exactly when the option is positive. -/
theorem setHeightStep_ok_eq (pf : Platform) (opts : Options)
    (op op' : PdfPageRenderOptions) (h : setHeightStep pf opts op = .ok op') :
    op' = if 0 < opts.height then
        { op with destinationHeight := some opts.height } else op := by
  by_cases hh : 0 < opts.height
  · rw [if_pos hh]
    cases hr : pf.setDestinationHeightResult opts.height with
    | error e =>
      unfold setHeightStep at h
      rw [if_pos hh, hr] at h
      exact Except.noConfusion h
    | ok u =>
      unfold setHeightStep at h
      rw [if_pos hh, hr] at h
      exact (Except.ok.inj h).symm
  · rw [if_neg hh]
    unfold setHeightStep at h
    rw [if_neg hh] at h
    exact (Except.ok.inj h).symm

/-- Helper: a successful rect step yields the input object with the
source rect set exactly when the option differs from the zero rect. -/
theorem setRectStep_ok_eq (pf : Platform) (opts : Options)
    (op op' : PdfPageRenderOptions) (h : setRectStep pf opts op = .ok op') :
    op' = if opts.rect ≠ Rect.default then
        { op with sourceRect := some (FoundationRect.fromRect opts.rect) }
      else op := by
  by_cases hr : opts.rect ≠ Rect.default
  · rw [if_pos hr]
    cases hs : pf.setSourceRectResult (FoundationRect.fromRect opts.rect) with
    | error e =>
      unfold setRectStep at h
      rw [if_pos hr, hs] at h
      exact Except.noConfusion h
    | ok u =>
      unfold setRectStep at h
      rw [if_pos hr, hs] at h
      exact (Except.ok.inj h).symm
  · rw [if_neg hr]
    unfold setRectStep at h
    rw [if_neg hr] at h
    exact (Except.ok.inj h).symm

/-- Helper: a successful encoder step yields the input object with the
encoder identifier set from the requested format. -/
theorem setEncoderStep_ok_eq (pf : Platform) (opts : Options)
    (op op' : PdfPageRenderOptions) (h : setEncoderStep pf opts op = .ok op') :
    op' = { op with bitmapEncoderId := some (ImageFormat.guid opts.format) } := by
  cases hs : pf.setBitmapEncoderIdResult (ImageFormat.guid opts.format) with
  | error e =>
    unfold setEncoderStep at h
    rw [hs] at h
    exact Except.noConfusion h
  | ok u =>
    unfold setEncoderStep at h
    rw [hs] at h
    exact (Except.ok.inj h).symm

/-- Helper: every successful translation yields exactly the object
described field by field by translatedOptions. -/
theorem tryFrom_ok_eq (pf : Platform) (opts : Options)
    (ro : PdfPageRenderOptions)
    (h : PdfPageRenderOptions.tryFrom pf opts = .ok ro) :
    ro = translatedOptions opts := by
  unfold PdfPageRenderOptions.tryFrom at h
  cases hn : pf.newRenderOptionsResult with
  | error e =>
    simp only [hn, liftW_error, exceptBind_error] at h
    exact Except.noConfusion h
  | ok u =>
    simp only [hn, liftW_ok, exceptBind_ok] at h
    cases h1 : setWidthStep pf opts PdfPageRenderOptions.empty with
    | error e =>
      simp only [h1, exceptBind_error] at h
      exact Except.noConfusion h
    | ok op1 =>
      simp only [h1, exceptBind_ok] at h
      cases h2 : setHeightStep pf opts op1 with
      | error e =>
        simp only [h2, exceptBind_error] at h
        exact Except.noConfusion h
      | ok op2 =>
        simp only [h2, exceptBind_ok] at h
        cases h3 : setRectStep pf opts op2 with
        | error e =>
          simp only [h3, exceptBind_error] at h
          exact Except.noConfusion h
        | ok op3 =>
          simp only [h3, exceptBind_ok] at h
          have h4 : setEncoderStep pf opts op3 = .ok ro := h
          have e1 := setWidthStep_ok_eq pf opts _ _ h1
          have e2 := setHeightStep_ok_eq pf opts _ _ h2
          have e3 := setRectStep_ok_eq pf opts _ _ h3
          have e4 := setEncoderStep_ok_eq pf opts _ _ h4
          subst e1
          subst e2
          subst e3
          subst e4
          unfold translatedOptions PdfPageRenderOptions.empty
          by_cases hw : 0 < opts.width <;> by_cases hh : 0 < opts.height <;>
            by_cases hr : opts.rect = Rect.default <;>
            simp [hw, hh, hr]

/-- Helper: the number of bytes the modelled read copies from the stream
never exceeds the stream size. -/
theorem loadedByteCount_le (n : Nat) : loadedByteCount n ≤ n :=
  min_le_right _ _

/-- Helper: a successful read returns the loaded prefix of the stream
contents followed by the zero padding of the untouched buffer tail. -/
theorem read_bytes_ok_shape (pf : Platform) (contents r : List Nat)
    (h : read_bytes pf contents = .ok r) :
    r = contents.take (loadedByteCount contents.length) ++
        List.replicate (contents.length - loadedByteCount contents.length) 0 := by
  cases h1 : pf.getInputStreamResult with
  | error e =>
    unfold read_bytes at h
    rw [h1] at h
    exact Except.noConfusion h
  | ok u1 =>
  cases h2 : pf.createReaderResult with
  | error e =>
    unfold read_bytes at h
    rw [h1, h2] at h
    exact Except.noConfusion h
  | ok u2 =>
  cases h3 : pf.sizeQueryResult with
  | error e =>
    unfold read_bytes at h
    rw [h1, h2, h3] at h
    exact Except.noConfusion h
  | ok u3 =>
  cases h4 : pf.loadCompleteResult (loadRequestSize contents.length) with
  | error e =>
    unfold read_bytes at h
    rw [h1, h2, h3, h4] at h
    exact Except.noConfusion h
  | ok u4 =>
  cases h5 : pf.readBytesResult contents.length with
  | error e =>
    unfold read_bytes at h
    rw [h1, h2, h3, h4, h5] at h
    exact Except.noConfusion h
  | ok u5 =>
    unfold read_bytes at h
    rw [h1, h2, h3, h4, h5] at h
    rw [← Except.ok.inj h, List.drop_replicate]

/-- Helper: a successful read returns a buffer of exactly the stream
size. -/
theorem read_bytes_ok_length (pf : Platform) (contents r : List Nat)
    (h : read_bytes pf contents = .ok r) :
    r.length = contents.length := by
  rw [read_bytes_ok_shape pf contents r h]
  rw [List.length_append, List.length_take, List.length_replicate]
  rw [min_eq_left (loadedByteCount_le contents.length)]
  exact Nat.add_sub_cancel' (loadedByteCount_le contents.length)

/-- C2: for every Options value, a successful translation to the
platform render-options object sets the destination width exactly when
the width option is positive (with that value), sets the destination
height exactly when the height option is positive (with that value),
and unconditionally sets the encoder identifier to the fixed platform
constant selected by the format. -/
theorem tryFrom_sets_dimensions_and_encoder (pf : Platform) (opts : Options)
    (ro : PdfPageRenderOptions)
    (h : PdfPageRenderOptions.tryFrom pf opts = .ok ro) :
    ro.destinationWidth = (if 0 < opts.width then some opts.width else none) ∧
    ro.destinationHeight = (if 0 < opts.height then some opts.height else none) ∧
    ro.bitmapEncoderId = some (ImageFormat.guid opts.format) := by
  rw [tryFrom_ok_eq pf opts ro h]
  exact ⟨rfl, rfl, rfl⟩

/-- Witness for C2 at a concrete input: width 320, height 0, Jpeg. -/
theorem tryFrom_sets_dimensions_and_encoder_witness :
    PdfPageRenderOptions.tryFrom pfOK ⟨320, 0, ⟨0, 0, 0, 0⟩, 1, ImageFormat.Jpeg⟩ =
      .ok ⟨some 320, none, none, some JPEG_ENCORDER_ID⟩ ∧
    ((⟨some 320, none, none, some JPEG_ENCORDER_ID⟩ :
        PdfPageRenderOptions).destinationWidth =
      (if 0 < (320 : Nat) then some (320 : Nat) else none) ∧
     (⟨some 320, none, none, some JPEG_ENCORDER_ID⟩ :
        PdfPageRenderOptions).destinationHeight =
      (if 0 < (0 : Nat) then some (0 : Nat) else none) ∧
     (⟨some 320, none, none, some JPEG_ENCORDER_ID⟩ :
        PdfPageRenderOptions).bitmapEncoderId =
      some (ImageFormat.guid ImageFormat.Jpeg)) :=
  ⟨rfl, tryFrom_sets_dimensions_and_encoder pfOK
    ⟨320, 0, ⟨0, 0, 0, 0⟩, 1, ImageFormat.Jpeg⟩
    ⟨some 320, none, none, some JPEG_ENCORDER_ID⟩ rfl⟩

/-- C3: a successful translation sets the platform source sub-rectangle
to the converted Options.rect exactly when it differs from the all-zero
Rect; the all-zero Rect (the Default value) leaves the source rectangle
unset, so it is interpreted as whole page, never as an empty region. -/
theorem tryFrom_source_rect_sentinel (pf : Platform) (opts : Options)
    (ro : PdfPageRenderOptions)
    (h : PdfPageRenderOptions.tryFrom pf opts = .ok ro) :
    Rect.default = ⟨0, 0, 0, 0⟩ ∧
    ro.sourceRect = (if opts.rect = Rect.default then none
      else some (FoundationRect.fromRect opts.rect)) := by
  rw [tryFrom_ok_eq pf opts ro h]
  exact ⟨rfl, rfl⟩

/-- Witness for C3 at a concrete input: a nonzero source rectangle. -/
theorem tryFrom_source_rect_sentinel_witness :
    PdfPageRenderOptions.tryFrom pfOK ⟨0, 0, ⟨1, 2, 3, 4⟩, 0, ImageFormat.Png⟩ =
      .ok ⟨none, none, some ⟨1, 2, 3, 4⟩, some PNG_ENCORDER_ID⟩ ∧
    (Rect.default = ⟨0, 0, 0, 0⟩ ∧
     (⟨none, none, some ⟨1, 2, 3, 4⟩, some PNG_ENCORDER_ID⟩ :
        PdfPageRenderOptions).sourceRect =
      (if (⟨1, 2, 3, 4⟩ : Rect) = Rect.default then none
        else some (FoundationRect.fromRect ⟨1, 2, 3, 4⟩))) :=
  ⟨rfl, tryFrom_source_rect_sentinel pfOK
    ⟨0, 0, ⟨1, 2, 3, 4⟩, 0, ImageFormat.Png⟩
    ⟨none, none, some ⟨1, 2, 3, 4⟩, some PNG_ENCORDER_ID⟩ rfl⟩

/-- C4: thumb delegates to thumb_with_options with the default Options
and thumb_async to thumb_with_options_async with the default Options, so
each pair computes identical output; the default Options value is width
0, height 0, zero rect, page 0, Png, and its successful translation
leaves width, height and source rect unset and selects the Png
encoder. -/
theorem thumb_default_options_equiv :
    (∀ pf, thumb pf = thumb_with_options pf Options.default) ∧
    (∀ pf, thumb_async pf = thumb_with_options_async pf Options.default) ∧
    Options.default = ⟨0, 0, ⟨0, 0, 0, 0⟩, 0, ImageFormat.Png⟩ ∧
    (∀ pf ro, PdfPageRenderOptions.tryFrom pf Options.default = .ok ro →
      ro = ⟨none, none, none, some PNG_ENCORDER_ID⟩) := by
  refine ⟨fun pf => rfl, fun pf => rfl, rfl, fun pf ro h => ?_⟩
  rw [tryFrom_ok_eq pf Options.default ro h]
  rfl

/-- Witness for C4 at the all-succeeding platform oracle. -/
theorem thumb_default_options_equiv_witness :
    PdfPageRenderOptions.tryFrom pfOK Options.default =
      .ok ⟨none, none, none, some PNG_ENCORDER_ID⟩ ∧
    thumb pfOK = thumb_with_options pfOK Options.default ∧
    (⟨none, none, none, some PNG_ENCORDER_ID⟩ : PdfPageRenderOptions) =
      ⟨none, none, none, some PNG_ENCORDER_ID⟩ :=
  ⟨rfl, thumb_default_options_equiv.1 pfOK,
    thumb_default_options_equiv.2.2.2 pfOK _ rfl⟩

/-- C5: the blocking and the suspending render calls run the same
sequence of steps (page lookup by the page option, stream creation, the
shared render issuance, the shared stream read) and so are extensionally
equal for every platform behavior and every Options value; likewise the
two default-options entry points. -/
theorem thumb_sync_async_equiv (pf : Platform) (opts : Options) :
    thumb_with_options_async pf opts = thumb_with_options pf opts ∧
    thumb_async pf = thumb pf :=
  ⟨rfl, rfl⟩

/-- C1 (amended): when the options translation fails, the error is
discarded by the as_ref().ok() conversion inside render; both render
calls proceed exactly as the pipeline issued with no options object,
and the translation error surfaces nowhere. -/
theorem translation_failure_discarded (pf : Platform) (opts : Options)
    (e : PdfThumbError)
    (h : PdfPageRenderOptions.tryFrom pf opts = .error e) :
    thumb_with_options pf opts = thumbPipelineNoOptions pf opts ∧
    thumb_with_options_async pf opts = thumbPipelineNoOptions pf opts := by
  have ht : (PdfPageRenderOptions.tryFrom pf opts).toOption = none := by
    rw [h]
    rfl
  constructor
  · cases hg : pf.getPageResult opts.page <;>
      cases hs : pf.newStreamResult <;>
      cases hi : pf.renderIssueResult none <;>
      cases hc : pf.renderCompleteResult <;>
        unfold thumb_with_options thumbPipelineNoOptions render <;>
        rw [ht, hg, hs, hi, hc] <;> rfl
  · cases hg : pf.getPageResult opts.page <;>
      cases hs : pf.newStreamResult <;>
      cases hi : pf.renderIssueResult none <;>
      cases hc : pf.renderCompleteResult <;>
        unfold thumb_with_options_async thumbPipelineNoOptions render <;>
        rw [ht, hg, hs, hi, hc] <;> rfl

/-- C1 (counterexample): on a platform where constructing the
render-options object fails, the translation fails, yet both render
calls return a byte buffer successfully: no platform error is surfaced
to the caller. -/
theorem translation_failure_not_surfaced_cex :
    PdfPageRenderOptions.tryFrom pfBadOptions Options.default =
      .error (.windows ⟨5⟩) ∧
    (thumb_with_options pfBadOptions Options.default).1 =
      .ok [137, 80, 78, 71] ∧
    (thumb_with_options_async pfBadOptions Options.default).1 =
      .ok [137, 80, 78, 71] :=
  ⟨rfl, rfl, rfl⟩

/-- Witness for amended C1 at the failing-construction oracle. -/
theorem translation_failure_discarded_witness :
    PdfPageRenderOptions.tryFrom pfBadOptions Options.default =
      .error (.windows ⟨5⟩) ∧
    thumb_with_options pfBadOptions Options.default =
      thumbPipelineNoOptions pfBadOptions Options.default :=
  ⟨rfl, (translation_failure_discarded pfBadOptions Options.default
    (.windows ⟨5⟩) rfl).1⟩

/-- C6: the platform page handle is closed exactly once on every path
on which the wrapper exists (the close count of a call is 1 whenever
the page lookup succeeded, whatever later steps do, and 0 when the
wrapper was never created), and the outcome of the close call is
swallowed: it never influences the call's result. -/
theorem page_closed_once_close_error_swallowed (pf : Platform)
    (opts : Options) :
    ((thumb_with_options pf opts).2 =
      match pf.getPageResult opts.page with
      | .ok _ => 1
      | .error _ => 0) ∧
    ((thumb_with_options_async pf opts).2 =
      match pf.getPageResult opts.page with
      | .ok _ => 1
      | .error _ => 0) ∧
    (∀ r, thumb_with_options { pf with closeResult := r } opts =
      thumb_with_options pf opts) := by
  refine ⟨?_, ?_, fun r => rfl⟩
  · cases hg : pf.getPageResult opts.page <;>
      cases hs : pf.newStreamResult <;>
      cases hi : pf.renderIssueResult
        ((PdfPageRenderOptions.tryFrom pf opts).toOption) <;>
      cases hc : pf.renderCompleteResult <;>
        unfold thumb_with_options render <;>
        rw [hg, hs, hi, hc] <;> rfl
  · cases hg : pf.getPageResult opts.page <;>
      cases hs : pf.newStreamResult <;>
      cases hi : pf.renderIssueResult
        ((PdfPageRenderOptions.tryFrom pf opts).toOption) <;>
      cases hc : pf.renderCompleteResult <;>
        unfold thumb_with_options_async render <;>
        rw [hg, hs, hi, hc] <;> rfl

/-- C8: aspect ratio is width divided by height, unconditionally, with
no guard on a zero height: the function is total, and a zero height
yields a non-finite value (an infinity or NaN) rather than an error. -/
theorem aspect_ratio_no_zero_guard (s : Size) :
    Size.aspectRatioWH s = F32.fdiv s.width s.height ∧
    (s.height = F32.finite 0 → (Size.aspectRatioWH s).isFinite = false) := by
  refine ⟨rfl, fun h => ?_⟩
  unfold Size.aspectRatioWH
  rw [h]
  cases hw : s.width with
  | finite q =>
    show (if (0 : ℚ) = 0 then
        if q = 0 then F32.nan else if 0 < q then F32.posInf else F32.negInf
      else F32.finite (q / 0)).isFinite = false
    split_ifs with h1 h2 h3 <;> first | rfl | exact absurd rfl h1
  | posInf =>
    show (if (0 : ℚ) ≤ 0 then F32.posInf else F32.negInf).isFinite = false
    split_ifs <;> rfl
  | negInf =>
    show (if (0 : ℚ) ≤ 0 then F32.negInf else F32.posInf).isFinite = false
    split_ifs <;> rfl
  | nan => rfl

/-- Witness for C8 at width 3 and height 0. -/
theorem aspect_ratio_no_zero_guard_witness :
    (Size.mk (F32.finite 3) (F32.finite 0)).height = F32.finite 0 ∧
    (Size.aspectRatioWH ⟨F32.finite 3, F32.finite 0⟩).isFinite = false :=
  ⟨rfl, (aspect_ratio_no_zero_guard ⟨F32.finite 3, F32.finite 0⟩).2 rfl⟩

/-- C9 (amended): the result extraction performed after completion by
both API modes, read_bytes, returns on success a freshly built buffer of
exactly the stream's size, and the load operation it issues is sized to
the stream size truncated to 32 bits, which equals the stream size
exactly when that size is below 2 to the 32. -/
theorem read_bytes_extraction_sequence (pf : Platform)
    (contents r : List Nat) (h : read_bytes pf contents = .ok r) :
    r.length = contents.length ∧
    loadRequestSize contents.length = contents.length % u32Mod ∧
    (contents.length < u32Mod →
      loadRequestSize contents.length = contents.length) := by
  refine ⟨read_bytes_ok_length pf contents r h, rfl, fun hlt => ?_⟩
  unfold loadRequestSize
  exact Nat.mod_eq_of_lt hlt

/-- Witness for amended C9 on a three-byte stream. -/
theorem read_bytes_extraction_sequence_witness :
    read_bytes pfOK [1, 2, 3] = .ok [1, 2, 3] ∧
    ([1, 2, 3] : List Nat).length = ([1, 2, 3] : List Nat).length :=
  ⟨rfl, (read_bytes_extraction_sequence pfOK [1, 2, 3] [1, 2, 3] rfl).1⟩

/-- C9 (counterexample): on a stream of exactly 2 to the 32 bytes the
load operation is issued with size 0, not the stream size: a platform
accepting only a full-size load request rejects the request issued by
read_bytes, and the request size differs from the stream size. -/
theorem read_bytes_request_truncated_cex :
    read_bytes pfStrictLoad (List.replicate 4294967296 0) =
      .error (.windows ⟨7⟩) ∧
    loadRequestSize 4294967296 ≠ 4294967296 := by
  constructor
  · have hgen : ∀ l : List Nat, l.length = 4294967296 →
        read_bytes pfStrictLoad l = .error (.windows ⟨7⟩) := by
      intro l hl
      unfold read_bytes
      rw [hl]
      rw [show loadRequestSize 4294967296 = 0 from Nat.mod_self 4294967296]
      rfl
    exact hgen _ (List.length_replicate _ _)
  · unfold loadRequestSize u32Mod
    rw [Nat.mod_self]
    decide

/-- C10: read_bytes truncates the 64-bit stream size to 32 bits when
sizing the load operation while the returned buffer has the full size:
for any stream of at least 2 to the 32 bytes only size mod 2 to the 32
bytes are loaded, strictly fewer than the buffer's length, so a
successful read returns the loaded prefix padded with zeros instead of
the stream's full contents. -/
theorem read_bytes_u32_truncation (pf : Platform) (contents : List Nat)
    (h : u32Mod ≤ contents.length) :
    loadRequestSize contents.length = contents.length % u32Mod ∧
    loadedByteCount contents.length < contents.length ∧
    ∀ r, read_bytes pf contents = .ok r →
      r.length = contents.length ∧
      r = contents.take (loadedByteCount contents.length) ++
          List.replicate (contents.length - loadedByteCount contents.length) 0 := by
  refine ⟨rfl, ?_, fun r hr =>
    ⟨read_bytes_ok_length pf contents r hr,
     read_bytes_ok_shape pf contents r hr⟩⟩
  unfold loadedByteCount loadRequestSize
  rw [min_eq_left (Nat.mod_le _ _)]
  exact lt_of_lt_of_le (Nat.mod_lt _ (by norm_num [u32Mod])) h

/-- Witness for C10 on a concrete stream of exactly 2 to the 32 zero
bytes: the load request is 0 bytes, strictly below the buffer length. -/
theorem read_bytes_u32_truncation_witness :
    u32Mod ≤ (List.replicate 4294967296 (0 : Nat)).length ∧
    read_bytes pfOK (List.replicate 4294967296 0) =
      .ok (List.replicate 4294967296 0) ∧
    loadedByteCount (List.replicate 4294967296 (0 : Nat)).length <
      (List.replicate 4294967296 (0 : Nat)).length := by
  have h1 : u32Mod ≤ (List.replicate 4294967296 (0 : Nat)).length := by
    rw [List.length_replicate]
    exact Nat.le_refl _
  have hreq : loadRequestSize 4294967296 = 0 := Nat.mod_self 4294967296
  have hcnt : loadedByteCount 4294967296 = 0 := by
    unfold loadedByteCount
    rw [hreq]
    exact min_eq_left (Nat.zero_le _)
  have hgen : ∀ l : List Nat, l.length = 4294967296 →
      read_bytes pfOK l = .ok (List.replicate 4294967296 0) := by
    intro l hl
    unfold read_bytes
    rw [hl, hreq, hcnt, List.take_zero, List.drop_zero, List.nil_append]
    rfl
  exact ⟨h1, hgen _ (List.length_replicate _ _),
    (read_bytes_u32_truncation pfOK _ h1).2.1⟩
